import Mathlib

/-!
Verification development for the STABL stability-selection engine
(src/stabl/stabl.py).  The Python code is shallowly embedded: numpy
arrays become lists of rationals, the numpy random generator becomes an
abstract state-threaded sampler, the external base estimator
(base_estimator + SelectFromModel) and the knockoff sampler become
function-valued capabilities carried in the configuration, and Python
exceptions become an explicit error type.  The unbounded redraw loop of
the resampler is modelled with an explicit fuel argument; exhausting the
fuel corresponds to the source diverging.
-/

/-- Errors surfaced by the embedded code.  ValueError raised by the
constructor / fit validation is mapped to invalidConfiguration (the name
the specification uses); notFitted models sklearn NotFittedError;
axisError models the numpy AxisError raised by np.max(None, axis=1);
typeError models the TypeError raised when comparing an array against
None; fuelExhausted is the modelling artifact for the unbounded redraw
recursion of the resampler. -/
inductive Err where
  | invalidConfiguration
  | notFitted
  | axisError
  | typeError
  | fuelExhausted
deriving DecidableEq, Repr

/-- Abstract interface of np.random.default_rng: a generator state is a
natural number; choice models rng.choice(a=n, size=k, replace=r) and
returns the sampled indices together with the advanced state; shuffle
models rng.shuffle of one column.  The concrete numpy bit generator is
external to the repository, so it is kept abstract; theorems quantify
over it and witnesses instantiate it with a concrete sampler. -/
structure Rng where
  choice : Nat → Nat → Nat → Bool → List Nat × Nat
  shuffle : Nat → List ℚ → List ℚ × Nat

/-- np.max over a list (the maximum over the regularization grid of one
feature's scores).  On the empty list, where numpy would raise, the
head default 0 is returned; all uses in this development are on
nonempty lists. -/
def listMax (l : List ℚ) : ℚ := l.foldl max (l.headD 0)

/-- np.min over a list, with the same empty-list convention as listMax. -/
def listMin (l : List ℚ) : ℚ := l.foldl min (l.headD 0)

/-- np.argmin: index of the first occurrence of the minimum. -/
def argminIdxAux : List ℚ → ℚ → Nat → Nat → Nat
  | [], _, _, best => best
  | x :: xs, bestVal, i, best =>
    if x < bestVal then argminIdxAux xs x (i + 1) i
    else argminIdxAux xs bestVal (i + 1) best

/-- np.argmin over a list of rationals (0 on the empty list, where
numpy would raise). -/
def argminIdx : List ℚ → Nat
  | [] => 0
  | x :: xs => argminIdxAux xs x 1 0

/-- Mean over the bootstrap axis: the fraction of the masks whose
entry j is set.  This is np.vstack(selected_variables)[:, j].mean(axis=0). -/
def meanAt (masks : List (List Bool)) (j : Nat) : ℚ :=
  ((masks.countP (fun m => m.getD j false) : ℕ) : ℚ) / ((masks.length : ℕ) : ℚ)

/-- Rebuild an n-row matrix from a list of columns:
row j of the result is the j-th entry of every column.  Used both to
turn the per-grid-point score columns into the (features x grid) score
matrix and to turn synthetic columns into sample rows. -/
def rowsOf (n : Nat) (cols : List (List ℚ)) : List (List ℚ) :=
  (List.range n).map (fun j => cols.map (fun c => c.getD j 0))

/-- X[indices, :] — row selection by index list. -/
def selectRows (X : List (List ℚ)) (ids : List Nat) : List (List ℚ) :=
  ids.map (fun i => X.getD i [])

/-- y[indices] — entry selection by index list. -/
def selectIdx (y : List ℚ) (ids : List Nat) : List ℚ :=
  ids.map (fun i => y.getD i 0)

/-- int(floor(q)) for a nonnegative rational (Python int() truncates
toward zero and every use site is on a nonnegative value). -/
def ratFloorNat (q : ℚ) : Nat := q.floor.toNat

/-- joblib.Parallel(n_jobs=...)(delayed(f)(x) for x in xs): the results
are returned in the order of the input iterable regardless of the
worker count and of completion order (joblib's documented semantics),
so the worker count is ignored by the model. -/
def parallelMap (_n_jobs : Int) (f : α → β) (xs : List α) : List β :=
  xs.map f

/-- Sequential effectful loop over a list that aborts on the first
error — the shape of the fit loop (and of generator consumption):
a single failing element aborts the whole fit. -/
def collectM (f : α → Except Err β) : List α → Except Err (List β)
  | [] => .ok []
  | a :: as =>
    match f a with
    | .error e => .error e
    | .ok b =>
      match collectM f as with
      | .error e => .error e
      | .ok bs => .ok (b :: bs)

/-- Constructor-time configuration of a STABL object (the parameters of
STABL.__init__).  The base estimator together with SelectFromModel is
an external capability: fitSelect lambdaName lambdaValue X y
bootstrapThreshold returns the boolean selection mask over all columns
(this is fit_bootstrapped_sample's contract).  estimatorParams models
base_estimator.get_params().keys(); knockoff models
GaussianSampler(X, method='equicorrelated').sample_knockoffs(),
returned as a list of columns.  verbose only drives the progress bar
and is omitted.  random_state is the integer seed handed to
np.random.default_rng. -/
structure Config where
  lambda_name : String
  estimatorParams : List String
  fitSelect : String → ℚ → List (List ℚ) → List ℚ → ℚ → List Bool
  knockoff : List (List ℚ) → List (List ℚ)
  lambda_grid : List ℚ
  n_bootstraps : Nat
  artificial_type : Option String
  artificial_proportion : ℚ
  sample_fraction : ℚ
  replace : Bool
  threshold : Option ℚ
  fdr_threshold_range : List ℚ
  bootstrap_threshold : ℚ
  n_jobs : Int
  random_state : Nat

/-- The attributes of a STABL object.  hasStabilityScoresAttr models
Python attribute existence for stability_scores_ (what sklearn
check_is_fitted(self, 'stability_scores_') actually tests via hasattr):
STABL.__init__ assigns stability_scores_ = None, so the attribute
exists — with value none — from construction on.  X_artificial_ is not
assigned in __init__ (none models the missing attribute).  coefs_ and
intercepts_ are assigned None in __init__ and never written again; they
carry no information and are omitted. -/
structure STABL where
  cfg : Config
  hasStabilityScoresAttr : Bool
  stability_scores_ : Option (List (List ℚ))
  stability_scores_artificial_ : Option (List (List ℚ))
  X_artificial_ : Option (List (List ℚ))
  FDRs_ : Option (List ℚ)
  min_fdr_ : Option ℚ
  fdr_min_threshold_ : Option ℚ

/-- STABL.__init__: stores the configuration and assigns None to every
fitted-state attribute (which makes the attributes exist, defeating the
hasattr test of check_is_fitted). -/
def STABL.init (cfg : Config) : STABL :=
  { cfg := cfg
    hasStabilityScoresAttr := true
    stability_scores_ := none
    stability_scores_artificial_ := none
    X_artificial_ := none
    FDRs_ := none
    min_fdr_ := none
    fdr_min_threshold_ := none }

/-- The bootstrap function (stabl.py lines 21-61): draw n_subsamples
indices via rng.choice; if the drawn outcome subset has fewer than two
distinct values, redraw with the same (advanced) generator.  The source
redraws by unbounded recursion; the fuel argument makes the embedding
total, with fuelExhausted standing for divergence.  The two-distinct-
values check is applied to whatever outcome vector is passed, with no
test that the task is classification. -/
def bootstrap (rng : Rng) : Nat → List ℚ → Nat → Bool → Nat → Except Err (List Nat × Nat)
  | 0, _, _, _, _ => .error .fuelExhausted
  | fuel + 1, y, n_subsamples, replace, st =>
    if n_subsamples > y.length ∧ replace = false then .error .invalidConfiguration
    else
      match rng.choice st y.length n_subsamples replace with
      | (sampled_indices, st₁) =>
        if ((sampled_indices.map (fun i => y.getD i 0)).dedup).length < 2 then
          bootstrap rng fuel y n_subsamples replace st₁
        else .ok (sampled_indices, st₁)

/-- Loop body of _bootstraps_generator: draw k index sets, threading the
generator state. -/
def bootstrapsGeneratorGo (rng : Rng) (fuel : Nat) (y : List ℚ) (n_subsamples : Nat)
    (replace : Bool) : Nat → Nat → Except Err (List (List Nat))
  | 0, _ => .ok []
  | k + 1, st =>
    match bootstrap rng fuel y n_subsamples replace st with
    | .error e => .error e
    | .ok (ids, st₁) =>
      match bootstrapsGeneratorGo rng fuel y n_subsamples replace k st₁ with
      | .error e => .error e
      | .ok rest => .ok (ids :: rest)

/-- _bootstraps_generator (stabl.py lines 64-103): creates a fresh
generator state from random_state (np.random.default_rng(random_state))
and yields n_bootstraps bootstrap index sets from it.  bootstrap never
returns a tuple, so the isinstance-tuple branch of the source is dead
and each subsample is yielded directly. -/
def bootstrapsGenerator (rng : Rng) (fuel : Nat) (n_bootstraps : Nat) (y : List ℚ)
    (n_subsamples : Nat) (replace : Bool) (random_state : Nat) :
    Except Err (List (List Nat)) :=
  bootstrapsGeneratorGo rng fuel y n_subsamples replace n_bootstraps random_state

/-- STABL._validate_input (stabl.py lines 662-691), with each raised
ValueError mapped to invalidConfiguration.  The final check mirrors the
source's if/elif chain: the lambda-name membership test runs exactly
when the artificial-proportion branch did not raise. -/
def validateInput (cfg : Config) : Except Err Unit :=
  if ¬ 0 < cfg.n_bootstraps then .error .invalidConfiguration
  else if ¬ 0 < cfg.sample_fraction then .error .invalidConfiguration
  else if (match cfg.threshold with
           | some t => decide (¬ (0 < t ∧ t ≤ 1))
           | none => false) then .error .invalidConfiguration
  else if cfg.threshold = none ∧ cfg.artificial_type = none then .error .invalidConfiguration
  else if cfg.artificial_type ≠ none ∧
          ¬ (0 < cfg.artificial_proportion ∧ cfg.artificial_proportion ≤ 1) then
    .error .invalidConfiguration
  else if ¬ cfg.estimatorParams.contains cfg.lambda_name then .error .invalidConfiguration
  else .ok ()

/-- State-threaded shuffle of a list of columns (the for-loop
for i in range(X_artificial.shape[1]): rng.shuffle(X_artificial[:, i])). -/
def shuffleCols (rng : Rng) : Nat → List (List ℚ) → List (List ℚ)
  | _, [] => []
  | st, c :: cs =>
    match rng.shuffle st c with
    | (c₁, st₁) => c₁ :: shuffleCols rng st₁ cs

/-- STABL._make_artificial_features (stabl.py lines 913-956): build the
synthetic block from a fresh generator seeded with random_state, and
return it (as sample rows, the shape of the stored X_artificial_
attribute) together with the concatenation X ++ block along the feature
axis.  random_permutation picks nb_noise real columns without
replacement and shuffles each; knockoff samples knockoff columns from
the external sampler capability and picks nb_noise of them; any other
mode raises ValueError. -/
def makeArtificialFeatures (rng : Rng) (knock : List (List ℚ) → List (List ℚ))
    (X : List (List ℚ)) (artificial_type : String) (nb_noise : Nat)
    (random_state : Nat) : Except Err (List (List ℚ) × List (List ℚ)) :=
  let st := random_state
  if artificial_type = "random_permutation" then
    let nCols := (X.headD []).length
    match rng.choice st nCols nb_noise false with
    | (indices, st₁) =>
      let cols := indices.map (fun i => X.map (fun row => row.getD i 0))
      let shuffled := shuffleCols rng st₁ cols
      let artRows := rowsOf X.length shuffled
      .ok (artRows, List.zipWith (fun r a => r ++ a) X artRows)
  else if artificial_type = "knockoff" then
    let kcols := knock X
    match rng.choice st kcols.length nb_noise false with
    | (indices, _) =>
      let cols := indices.map (fun i => kcols.getD i [])
      let artRows := rowsOf X.length cols
      .ok (artRows, List.zipWith (fun r a => r ++ a) X artRows)
  else .error .invalidConfiguration

/-- The bootstrap batch drawn for one grid point of the fit loop
(stabl.py lines 747-754): the generator is re-created from
self.random_state at every grid point, so the draw depends neither on
the grid value nor on any other grid point's draws. -/
def gridPointBatch (rng : Rng) (fuel : Nat) (cfg : Config) (y : List ℚ)
    (n_subsamples : Nat) (_lambda_value : ℚ) : Except Err (List (List Nat)) :=
  bootstrapsGenerator rng fuel cfg.n_bootstraps y n_subsamples cfg.replace cfg.random_state

/-- fit_bootstrapped_sample (stabl.py lines 455-507): sets the penalty
parameter, fits a clone of the base estimator and reads the
SelectFromModel mask — entirely the external estimator capability. -/
def fit_bootstrapped_sample (cfg : Config) (lambda_value : ℚ)
    (X : List (List ℚ)) (y : List ℚ) : List Bool :=
  cfg.fitSelect cfg.lambda_name lambda_value X y cfg.bootstrap_threshold

/-- One grid point of the fit loop (stabl.py lines 747-770): draw the
batch, then run the per-resample fit-and-select over it on the joblib
pool (order-preserving). -/
def gridPointMasks (rng : Rng) (fuel : Nat) (cfg : Config) (X : List (List ℚ))
    (y : List ℚ) (n_subsamples : Nat) (lambda_value : ℚ) :
    Except Err (List (List Bool)) :=
  match gridPointBatch rng fuel cfg y n_subsamples lambda_value with
  | .error e => .error e
  | .ok batch =>
    .ok (parallelMap cfg.n_jobs
      (fun subsample_indices =>
        fit_bootstrapped_sample cfg lambda_value
          (selectRows X subsample_indices) (selectIdx y subsample_indices))
      batch)

/-- The matrices computed by one call of STABL.fit before the FDR step:
the real score matrix, and (when synthetic features are enabled) the
artificial score matrix and the synthetic block. -/
structure FitBundle where
  scores : List (List ℚ)
  artScores : Option (List (List ℚ))
  xArt : Option (List (List ℚ))

/-- The score-computation part of STABL.fit (stabl.py lines 693-777):
validate, inject synthetic features when enabled, then for every grid
point draw a fresh batch, fit the resamples, and average the masks into
score columns; finally assemble the (features x grid) matrices.  The
zero initialisations of the score arrays in the source are wholly
overwritten by the per-grid-point column writes, so the matrices are
built directly.  The length check models sklearn _validate_data's
consistency check on X and y. -/
def fitScores (rng : Rng) (fuel : Nat) (cfg : Config) (X : List (List ℚ))
    (y : List ℚ) : Except Err FitBundle :=
  match validateInput cfg with
  | .error e => .error e
  | .ok _ =>
    if X.length ≠ y.length then .error .invalidConfiguration
    else
      let n_features := (X.headD []).length
      let n_subsamples := ratFloorNat (cfg.sample_fraction * (y.length : ℚ))
      let n_injected_noise := ratFloorNat ((n_features : ℚ) * cfg.artificial_proportion)
      match cfg.artificial_type with
      | some atype =>
        match makeArtificialFeatures rng cfg.knockoff X atype n_injected_noise
            cfg.random_state with
        | .error e => .error e
        | .ok (artRows, Xfull) =>
          match collectM (gridPointMasks rng fuel cfg Xfull y n_subsamples)
              cfg.lambda_grid with
          | .error e => .error e
          | .ok masksPerLambda =>
            let realCols := masksPerLambda.map
              (fun masks => (List.range n_features).map (meanAt masks))
            let artCols := masksPerLambda.map
              (fun masks => (List.range n_injected_noise).map
                (fun j => meanAt masks (n_features + j)))
            .ok ⟨rowsOf n_features realCols, some (rowsOf n_injected_noise artCols),
                 some artRows⟩
      | none =>
        match collectM (gridPointMasks rng fuel cfg X y n_subsamples)
            cfg.lambda_grid with
        | .error e => .error e
        | .ok masksPerLambda =>
          let realCols := masksPerLambda.map
            (fun masks => (List.range n_features).map (meanAt masks))
          .ok ⟨rowsOf n_features realCols, none, none⟩

/-- count(scores > t), as the rational value numpy's masked sum yields. -/
def countGT (l : List ℚ) (t : ℚ) : ℚ :=
  ((l.countP (fun x => decide (t < x)) : ℕ) : ℚ)

/-- STABL._compute_FDRc (stabl.py lines 958-999).  The source's
signature takes the threshold grid, the two max-score vectors and the
proportion, but the body ignores all four parameters and recomputes
them from self's attributes; the embedding keeps the (ignored)
parameters.  np.max over an absent (None) score matrix raises the numpy
error modelled by axisError. -/
def computeFDRc (s : STABL) (_thresholds_grid : List ℚ) (_max_scores : List ℚ)
    (_max_scores_artificial : List ℚ) (_artificial_proportion : ℚ) :
    Except Err STABL :=
  match s.stability_scores_artificial_, s.stability_scores_ with
  | some aRows, some rRows =>
    let max_scores_artificial := aRows.map listMax
    let max_scores := rRows.map listMax
    let FDPs := s.cfg.fdr_threshold_range.map (fun thresh =>
      ((1 / s.cfg.artificial_proportion) * countGT max_scores_artificial thresh + 1) /
        ((Nat.max 1 (max_scores.countP (fun x => decide (thresh < x))) : ℕ) : ℚ))
    let min_fdr := listMin FDPs
    let final_cutoff : ℚ :=
      if 1 < min_fdr then 1
      else min (s.cfg.fdr_threshold_range.getD (argminIdx FDPs) 0) 1
    .ok { s with FDRs_ := some FDPs, min_fdr_ := some min_fdr,
                 fdr_min_threshold_ := some final_cutoff }
  | _, _ => .error .axisError

/-- STABL.fit (stabl.py lines 693-789): compute the score matrices,
install them on the object (the artificial score matrix and the
synthetic block are written only when synthetic features are enabled),
then, only when synthetic features are enabled, run the FDR controller
on the attributes just written. -/
def STABL.fit (rng : Rng) (fuel : Nat) (s : STABL) (X : List (List ℚ))
    (y : List ℚ) : Except Err STABL :=
  match fitScores rng fuel s.cfg X y with
  | .error e => .error e
  | .ok b =>
    let s₁ : STABL :=
      { s with
        stability_scores_ := some b.scores
        stability_scores_artificial_ :=
          match b.artScores with
          | some a => some a
          | none => s.stability_scores_artificial_
        X_artificial_ :=
          match b.xArt with
          | some xa => some xa
          | none => s.X_artificial_ }
    match s.cfg.artificial_type with
    | some _ =>
      computeFDRc s₁ s.cfg.fdr_threshold_range (b.scores.map listMax)
        ((b.artScores.getD []).map listMax) s.cfg.artificial_proportion
    | none => .ok s₁

/-- STABL._get_support_mask (stabl.py lines 882-911):
check_is_fitted(self, 'stability_scores_') tests attribute existence;
the override threshold (or, when absent, the constructor threshold, or,
when that is absent too, the FDR controller's threshold) becomes the
cutoff; the mask is max-over-grid score strictly above the cutoff.
No range validation is applied to the override.  np.max over a None
score matrix raises the numpy error modelled by axisError; comparing
the score vector against a None cutoff raises the TypeError modelled by
typeError. -/
def getSupportMask (s : STABL) (new_threshold : Option ℚ) : Except Err (List Bool) :=
  if s.hasStabilityScoresAttr then
    let nt := match new_threshold with
              | none => s.cfg.threshold
              | some t => some t
    let final_cutoff := match nt with
                        | none => s.fdr_min_threshold_
                        | some t => some t
    match s.stability_scores_ with
    | none => .error .axisError
    | some rows =>
      let max_scores := rows.map listMax
      match final_cutoff with
      | none => .error .typeError
      | some c => .ok (max_scores.map (fun x => decide (c < x)))
  else .error .notFitted

/-- STABL.get_support (stabl.py lines 791-816) with indices=False:
delegates to _get_support_mask. -/
def STABL.get_support (s : STABL) (new_threshold : Option ℚ) :
    Except Err (List Bool) :=
  getSupportMask s new_threshold

/-- The optimal-threshold computation of plot_fdr_graph (stabl.py lines
195-201): when min_fdr_ exceeds 0.5 the graph reports threshold 1.0
labelled "No optimal threshold", otherwise the grid argmin of the FDR
curve.  The boolean records whether the no-optimal-threshold label was
chosen.  none models the crash the source would have on an unfitted
instance. -/
def plotOptimalThreshold (s : STABL) : Option (ℚ × Bool) :=
  match s.min_fdr_ with
  | none => none
  | some m =>
    if 1 / 2 < m then some (1, true)
    else some (s.cfg.fdr_threshold_range.getD (argminIdx (s.FDRs_.getD [])) 0, false)

/-- The FDP estimator exactly as the specification words it:
FDP(t) = [ (1 / artificial_proportion) * count(synthetic_max_score > t) + 1 ]
         / max(1, count(real_max_score > t)).
Stated separately from the source-derived computeFDRc so the two can be
compared. -/
def spec_FDP (artificial_proportion : ℚ) (synthetic_max_score real_max_score : List ℚ)
    (t : ℚ) : ℚ :=
  ((1 / artificial_proportion) * countGT synthetic_max_score t + 1) /
    ((Nat.max 1 (real_max_score.countP (fun x => decide (t < x))) : ℕ) : ℚ)

/-! ## Concrete instances used by counterexamples and witnesses -/

/-- A concrete deterministic sampler: choice returns size consecutive
indices modulo the population size starting at the state, shuffle
reverses the column; both advance the state. -/
def rngW : Rng :=
  { choice := fun st n size _ => ((List.range size).map (fun i => (st + i) % n), st + size)
    shuffle := fun st c => (c.reverse, st + 1) }

/-- A concrete estimator capability that always selects the first of
two columns. -/
def fitSelW : String → ℚ → List (List ℚ) → List ℚ → ℚ → List Bool :=
  fun _ _ _ _ _ => [true, false]

/-- A concrete configuration without synthetic features and with a hard
threshold 1/2. -/
def cfgW8 : Config :=
  { lambda_name := "C", estimatorParams := ["C"], fitSelect := fitSelW,
    knockoff := fun _ => [], lambda_grid := [1], n_bootstraps := 1,
    artificial_type := none, artificial_proportion := 1, sample_fraction := 1,
    replace := false, threshold := some (1/2), fdr_threshold_range := [3/10],
    bootstrap_threshold := 1/100000, n_jobs := -1, random_state := 0 }

/-- The same configuration with random-permutation synthetic features,
FDR-controlled threshold, and an estimator capability selecting columns
0 and 2 of the four (two real + two synthetic) columns. -/
def cfgW9 : Config :=
  { cfgW8 with
    artificial_type := some "random_permutation"
    threshold := none
    fitSelect := fun _ _ _ _ _ => [true, false, true, false] }

/-- A concrete 2x2 design matrix. -/
def X0 : List (List ℚ) := [[1, 2], [3, 4]]

/-- A concrete binary outcome vector. -/
def y0 : List ℚ := [0, 1]

/-- The object fitted once with cfgW8 (no synthetic features). -/
def sFit8 : STABL :=
  match STABL.fit rngW 2 (STABL.init cfgW8) X0 y0 with
  | .ok s => s
  | .error _ => STABL.init cfgW8

/-- A fitted state whose five real features all reach maximum score
19/20 and whose two synthetic features reach 99/100; on the threshold
grid [3/10] the estimated FDP is (2 + 1)/5 = 3/5, strictly between 1/2
and 1. -/
def sC1 : STABL :=
  { STABL.init cfgW9 with
    stability_scores_ := some [[19/20], [19/20], [19/20], [19/20], [19/20]]
    stability_scores_artificial_ := some [[99/100], [99/100]] }

/-- The state sC1 after running the FDR controller. -/
def c1res : STABL :=
  match computeFDRc sC1 [] [] [] 1 with
  | .ok s => s
  | .error _ => sC1

/-- A fitted state with one real feature (max score 1/5) and two
synthetic features (max score 9/10): on the grid [3/10] the estimated
FDP is (2 + 1)/max(1, 0) = 3, above 1. -/
def sC2 : STABL :=
  { STABL.init cfgW9 with
    stability_scores_ := some [[1/5]]
    stability_scores_artificial_ := some [[9/10], [9/10]] }

/-- The state sC2 after running the FDR controller. -/
def c2res : STABL :=
  match computeFDRc sC2 [] [] [] 1 with
  | .ok s => s
  | .error _ => sC2

/-- A fitted state with one real feature of max score 19/20 and one
synthetic feature of max score 1/10, used to witness the FDR-curve
formula. -/
def sW2 : STABL :=
  { STABL.init cfgW9 with
    stability_scores_ := some [[19/20]]
    stability_scores_artificial_ := some [[1/10]] }

/-- A fitted state with a single feature of max score 7/10. -/
def sC5 : STABL :=
  { STABL.init cfgW8 with stability_scores_ := some [[7/10]] }

/-- A fitted state with two features of max scores 3/5 and 9/10. -/
def sC6 : STABL :=
  { STABL.init cfgW8 with stability_scores_ := some [[3/5], [9/10]] }

/-- The object fitted once with cfgW9 (synthetic features enabled). -/
def s1C9 : STABL :=
  match STABL.fit rngW 4 (STABL.init cfgW9) X0 y0 with
  | .ok s => s
  | .error _ => STABL.init cfgW9

/-- The fitted object s1C9 with its parameters changed (as by
set_params) to cfgW8 — synthetic features off, hard threshold 1/2 —
before a second call to fit. -/
def s2C9 : STABL := { s1C9 with cfg := cfgW8 }

/-- The object after the second fit. -/
def s3C9 : STABL :=
  match STABL.fit rngW 4 s2C9 X0 y0 with
  | .ok s => s
  | .error _ => s2C9

/-! ## Shared lemmas about the embedded operations -/

/-- A successful run of the generator loop returns exactly as many
index sets as requested. -/
theorem bootstrapsGeneratorGo_length (rng : Rng) (fuel : Nat) (y : List ℚ)
    (n_subsamples : Nat) (replace : Bool) :
    ∀ (k st : Nat) (l : List (List Nat)),
      bootstrapsGeneratorGo rng fuel y n_subsamples replace k st = .ok l →
      l.length = k := by
  intro k
  induction k with
  | zero =>
    intro st l h
    simp only [bootstrapsGeneratorGo] at h
    cases h
    rfl
  | succ n ih =>
    intro st l h
    simp only [bootstrapsGeneratorGo] at h
    split at h
    · cases h
    · split at h
      · cases h
      · rename_i hg
        cases h
        simp [ih _ _ hg]

/-- A successful run of _bootstraps_generator yields exactly
n_bootstraps index sets. -/
theorem bootstrapsGenerator_length {rng : Rng} {fuel : Nat} {n_bootstraps : Nat}
    {y : List ℚ} {n_subsamples : Nat} {replace : Bool} {random_state : Nat}
    {l : List (List Nat)}
    (h : bootstrapsGenerator rng fuel n_bootstraps y n_subsamples replace random_state
         = .ok l) : l.length = n_bootstraps :=
  bootstrapsGeneratorGo_length rng fuel y n_subsamples replace n_bootstraps random_state l h

/-- A successful grid-point run produces one mask per bootstrap. -/
theorem gridPointMasks_length {rng : Rng} {fuel : Nat} {cfg : Config}
    {X : List (List ℚ)} {y : List ℚ} {n_subsamples : Nat} {lambda_value : ℚ}
    {masks : List (List Bool)}
    (h : gridPointMasks rng fuel cfg X y n_subsamples lambda_value = .ok masks) :
    masks.length = cfg.n_bootstraps := by
  unfold gridPointMasks at h
  split at h
  · cases h
  · rename_i batch hb
    cases h
    simpa [parallelMap] using bootstrapsGenerator_length hb

/-- Every element of a successful collectM run comes from a successful
application of the body to some element of the input list. -/
theorem collectM_ok_mem {α β : Type} {f : α → Except Err β} :
    ∀ {xs : List α} {ys : List β}, collectM f xs = .ok ys →
      ∀ b ∈ ys, ∃ a ∈ xs, f a = .ok b := by
  intro xs
  induction xs with
  | nil =>
    intro ys h b hb
    simp only [collectM] at h
    cases h
    cases hb
  | cons a as ih =>
    intro ys h b hb
    simp only [collectM] at h
    split at h
    · cases h
    · rename_i fb ha
      split at h
      · cases h
      · rename_i bs hr
        cases h
        rcases List.mem_cons.mp hb with rfl | hb₁
        · exact ⟨a, List.mem_cons_self a as, ha⟩
        · rcases ih hr b hb₁ with ⟨x, hx, hfx⟩
          exact ⟨x, List.mem_cons_of_mem a hx, hfx⟩

/-- Entry j of the map of a function over List.range n, for j < n. -/
theorem getD_range_map (f : Nat → ℚ) (d : ℚ) (n j : Nat) (h : j < n) :
    ((List.range n).map f).getD j d = f j := by
  simp [List.getD_eq_getElem?_getD, List.getElem?_map, List.getElem?_range, h]

/-- A successful validation implies the bootstrap count is positive. -/
theorem validateInput_n_bootstraps_pos {cfg : Config}
    (h : validateInput cfg = .ok ()) : 0 < cfg.n_bootstraps := by
  by_contra hn
  simp [validateInput, hn] at h

/-- The FDR controller only rewrites the FDR attributes; the score
matrices pass through unchanged. -/
theorem computeFDRc_preserves_scores {s : STABL} {g m ma : List ℚ} {p : ℚ}
    {s₁ : STABL} (h : computeFDRc s g m ma p = .ok s₁) :
    s₁.stability_scores_ = s.stability_scores_ ∧
    s₁.stability_scores_artificial_ = s.stability_scores_artificial_ ∧
    s₁.X_artificial_ = s.X_artificial_ ∧ s₁.cfg = s.cfg := by
  unfold computeFDRc at h
  split at h
  · cases h
    exact ⟨rfl, rfl, rfl, rfl⟩
  · cases h

/-- A successful score computation implies the configuration validated. -/
theorem fitScores_ok_validate {rng : Rng} {fuel : Nat} {cfg : Config}
    {X : List (List ℚ)} {y : List ℚ} {b : FitBundle}
    (h : fitScores rng fuel cfg X y = .ok b) : validateInput cfg = .ok () := by
  unfold fitScores at h
  split at h
  · cases h
  · rename_i u hv
    cases u
    exact hv

/-- Without synthetic features the score computation leaves the
artificial slots of the bundle empty. -/
theorem fitScores_none_artificial {rng : Rng} {fuel : Nat} {cfg : Config}
    {X : List (List ℚ)} {y : List ℚ} {b : FitBundle}
    (hat : cfg.artificial_type = none)
    (h : fitScores rng fuel cfg X y = .ok b) :
    b.artScores = none ∧ b.xArt = none := by
  unfold fitScores at h
  split at h
  · cases h
  · simp only [hat] at h
    split at h
    · cases h
    · split at h
      · cases h
      · cases h
        exact ⟨rfl, rfl⟩

/-- Inversion of a successful fit: the bundle behind it, and how the
attributes of the result relate to the bundle and to the pre-fit
attributes. -/
theorem fit_ok_scores {rng : Rng} {fuel : Nat} {s : STABL} {X : List (List ℚ)}
    {y : List ℚ} {s₁ : STABL} (h : STABL.fit rng fuel s X y = .ok s₁) :
    ∃ b, fitScores rng fuel s.cfg X y = .ok b ∧
      s₁.stability_scores_ = some b.scores ∧
      s₁.stability_scores_artificial_ =
        (match b.artScores with
         | some a => some a
         | none => s.stability_scores_artificial_) := by
  unfold STABL.fit at h
  split at h
  · cases h
  · rename_i b hb
    refine ⟨b, hb, ?_, ?_⟩ <;>
    · cases hta : s.cfg.artificial_type with
      | none =>
        simp only [hta] at h
        cases h
        rfl
      | some atype =>
        simp only [hta] at h
        rcases computeFDRc_preserves_scores h with ⟨h1, h2, _, _⟩
        first
          | exact h1
          | exact h2

/-- Every entry of the real score matrix produced by a successful score
computation is the bootstrap-axis mean of one grid point's mask batch. -/
theorem fitScores_entry_real {rng : Rng} {fuel : Nat} {cfg : Config}
    {X : List (List ℚ)} {y : List ℚ} {b : FitBundle}
    (h : fitScores rng fuel cfg X y = .ok b) :
    ∀ row ∈ b.scores, ∀ q ∈ row,
      ∃ masks j, masks.length = cfg.n_bootstraps ∧ q = meanAt masks j := by
  unfold fitScores at h
  split at h
  · cases h
  · split at h
    · cases h
    · have entry : ∀ (masksPerLambda : List (List (List Bool))) (nf : Nat)
          (g : List (List Bool) → Nat → ℚ),
          (∀ masks ∈ masksPerLambda, masks.length = cfg.n_bootstraps) →
          (∀ masks j, ∃ j₁, g masks j = meanAt masks j₁) →
          ∀ row ∈ rowsOf nf (masksPerLambda.map
              (fun masks => (List.range nf).map (g masks))), ∀ q ∈ row,
            ∃ masks j, masks.length = cfg.n_bootstraps ∧ q = meanAt masks j := by
        intro mpl nf g hlen hg row hrow q hq
        unfold rowsOf at hrow
        rcases List.mem_map.mp hrow with ⟨j, hjmem, rfl⟩
        have hj := List.mem_range.mp hjmem
        rcases List.mem_map.mp hq with ⟨c, hcmem, rfl⟩
        rcases List.mem_map.mp hcmem with ⟨masks, hmasks, rfl⟩
        rw [getD_range_map _ _ _ _ hj]
        rcases hg masks j with ⟨j₁, hgj⟩
        exact ⟨masks, j₁, hlen masks hmasks, hgj⟩
      split at h
      · dsimp only at h
        split at h
        · cases h
        · split at h
          · cases h
          · rename_i hc
            cases h
            refine entry _ _ _ (fun masks hm => ?_) (fun masks j => ⟨j, rfl⟩)
            rcases collectM_ok_mem hc masks hm with ⟨lam, _, hgm⟩
            exact gridPointMasks_length hgm
      · dsimp only at h
        split at h
        · cases h
        · rename_i hc
          cases h
          refine entry _ _ _ (fun masks hm => ?_) (fun masks j => ⟨j, rfl⟩)
          rcases collectM_ok_mem hc masks hm with ⟨lam, _, hgm⟩
          exact gridPointMasks_length hgm

/-- With synthetic features enabled, the bundle's artificial score
matrix is present and each of its entries likewise is the
bootstrap-axis mean of one grid point's mask batch. -/
theorem fitScores_entry_artificial {rng : Rng} {fuel : Nat} {cfg : Config}
    {X : List (List ℚ)} {y : List ℚ} {b : FitBundle} {atype : String}
    (hat : cfg.artificial_type = some atype)
    (h : fitScores rng fuel cfg X y = .ok b) :
    ∃ rows, b.artScores = some rows ∧ ∀ row ∈ rows, ∀ q ∈ row,
      ∃ masks j, masks.length = cfg.n_bootstraps ∧ q = meanAt masks j := by
  unfold fitScores at h
  split at h
  · cases h
  · split at h
    · cases h
    · simp only [hat] at h
      split at h
      · cases h
      · split at h
        · cases h
        · rename_i hc
          cases h
          refine ⟨_, rfl, ?_⟩
          intro row hrow q hq
          unfold rowsOf at hrow
          rcases List.mem_map.mp hrow with ⟨j, hjmem, rfl⟩
          have hj := List.mem_range.mp hjmem
          rcases List.mem_map.mp hq with ⟨c, hcmem, rfl⟩
          rcases List.mem_map.mp hcmem with ⟨masks, hmasks, rfl⟩
          rw [getD_range_map _ _ _ _ hj]
          rcases collectM_ok_mem hc masks hmasks with ⟨lam, _, hgm⟩
          exact ⟨masks, _, gridPointMasks_length hgm, rfl⟩

/-- The bootstrap-axis mean over a batch of n masks is a fraction k/n
with 0 ≤ k ≤ n; in particular it lies in the unit interval. -/
theorem meanAt_fraction {masks : List (List Bool)} {n : Nat} (j : Nat)
    (hlen : masks.length = n) (hn : 0 < n) :
    (0 ≤ meanAt masks j ∧ meanAt masks j ≤ 1) ∧
    ∃ k, k ≤ n ∧ meanAt masks j = (k : ℚ) / (n : ℚ) := by
  have hk : masks.countP (fun m => m.getD j false) ≤ n := by
    rw [← hlen]
    exact List.countP_le_length _
  have hnq : (0 : ℚ) < (n : ℚ) := by exact_mod_cast hn
  unfold meanAt
  rw [hlen]
  refine ⟨⟨div_nonneg (by positivity) (by positivity), ?_⟩,
    masks.countP (fun m => m.getD j false), hk, rfl⟩
  rw [div_le_one hnq]
  exact_mod_cast hk

/-- Pointwise monotonicity of strict-threshold masks: a feature selected
at the higher cutoff is selected at the lower one. -/
theorem getD_map_lt_mono (l : List ℚ) (t₁ t₂ : ℚ) (h : t₁ ≤ t₂) :
    ∀ j, (l.map (fun x => decide (t₂ < x))).getD j false = true →
      (l.map (fun x => decide (t₁ < x))).getD j false = true := by
  induction l with
  | nil => intro j hj; simp at hj
  | cons a as ih =>
    intro j
    cases j with
    | zero =>
      simp only [List.map_cons, List.getD_cons_zero, decide_eq_true_eq]
      intro h2
      exact lt_of_le_of_lt h h2
    | succ k =>
      simp only [List.map_cons, List.getD_cons_succ]
      exact ih k

/-- Count monotonicity of strict-threshold masks: lowering the cutoff
can only grow the number of selected features. -/
theorem countP_map_lt_mono (l : List ℚ) (t₁ t₂ : ℚ) (h : t₁ ≤ t₂) :
    (l.map (fun x => decide (t₂ < x))).countP (fun b => b) ≤
    (l.map (fun x => decide (t₁ < x))).countP (fun b => b) := by
  induction l with
  | nil => simp
  | cons a as ih =>
    simp only [List.map_cons, List.countP_cons, decide_eq_true_eq]
    by_cases h2 : t₂ < a
    · have h1 : t₁ < a := lt_of_le_of_lt h h2
      rw [if_pos h2, if_pos h1]
      omega
    · rw [if_neg h2]
      by_cases h1 : t₁ < a
      · rw [if_pos h1]
        omega
      · rw [if_neg h1]
        omega

/-! ## Claim C10 -/

/-- Claim C10: whenever the bootstrap resampler returns an index set,
the outcome vector restricted to those indices contains at least two
distinct values.  The outcome vector ranges over arbitrary rational
vectors: the redraw-until-two-classes check embedded from stabl.py
lines 57-59 is applied unconditionally, for continuous regression
outcomes just as for classification outcomes. -/
theorem bootstrap_post_two_distinct_outcomes (rng : Rng) :
    ∀ (fuel : Nat) (y : List ℚ) (n_subsamples : Nat) (replace : Bool)
      (st : Nat) (ids : List Nat) (st₁ : Nat),
      bootstrap rng fuel y n_subsamples replace st = .ok (ids, st₁) →
      2 ≤ ((ids.map (fun i => y.getD i 0)).dedup).length := by
  intro fuel
  induction fuel with
  | zero =>
    intro y ns r st ids st₁ h
    simp only [bootstrap] at h
    cases h
  | succ k ih =>
    intro y ns r st ids st₁ h
    simp only [bootstrap] at h
    split at h
    · cases h
    · split at h
      · exact ih y ns r _ ids st₁ h
      · rename_i hcond
        cases h
        omega

/-- Witness for C10 on a continuous outcome vector y = [3/2, 7/2]: the
concrete sampler draws indices 0 and 1 and the restricted outcome has
two distinct values. -/
theorem bootstrap_post_two_distinct_outcomes_witness :
    bootstrap rngW 1 [3/2, 7/2] 2 false 0 = .ok ([0, 1], 2) ∧
    2 ≤ ((([0, 1] : List Nat).map (fun i => ([3/2, 7/2] : List ℚ).getD i 0)).dedup).length :=
  ⟨by with_unfolding_all rfl,
   bootstrap_post_two_distinct_outcomes rngW 1 [3/2, 7/2] 2 false 0 [0, 1] 2
     (by with_unfolding_all rfl)⟩

/-! ## Claim C4 -/

/-- Claim C4: at every grid point of the fit loop a fresh batch of
n_bootstraps index sets is drawn via the resampler.  The batch drawn at
a grid point is the same full from-seed generator run whatever the grid
value is (first conjunct: no generator state threads from one grid
point into another, since every grid point re-creates the generator
from random_state), a successful batch holds exactly n_bootstraps index
sets (second conjunct), and the per-grid-point mask list consumes
exactly that batch, one mask per index set (third conjunct). -/
theorem fit_draws_fresh_batch_per_grid_point (rng : Rng) (fuel : Nat)
    (cfg : Config) (y : List ℚ) (n_subsamples : Nat) :
    (∀ lam₁ lam₂ : ℚ, gridPointBatch rng fuel cfg y n_subsamples lam₁ =
      gridPointBatch rng fuel cfg y n_subsamples lam₂) ∧
    (∀ (lam : ℚ) (batch : List (List Nat)),
      gridPointBatch rng fuel cfg y n_subsamples lam = .ok batch →
      batch.length = cfg.n_bootstraps) ∧
    (∀ (X : List (List ℚ)) (lam : ℚ) (masks : List (List Bool)),
      gridPointMasks rng fuel cfg X y n_subsamples lam = .ok masks →
      masks.length = cfg.n_bootstraps) :=
  ⟨fun _ _ => rfl,
   fun _ _ h => bootstrapsGenerator_length h,
   fun _ _ _ h => gridPointMasks_length h⟩

/-- Witness for C4 at the concrete configuration: the batches drawn at
grid values 1 and 5 coincide, and the batch holds exactly
n_bootstraps = 1 index sets. -/
theorem fit_draws_fresh_batch_per_grid_point_witness :
    gridPointBatch rngW 2 cfgW8 y0 2 1 = gridPointBatch rngW 2 cfgW8 y0 2 5 ∧
    gridPointBatch rngW 2 cfgW8 y0 2 1 = .ok [[0, 1]] ∧
    ([[0, 1]] : List (List Nat)).length = cfgW8.n_bootstraps :=
  ⟨(fit_draws_fresh_batch_per_grid_point rngW 2 cfgW8 y0 2).1 1 5,
   by with_unfolding_all rfl,
   (fit_draws_fresh_batch_per_grid_point rngW 2 cfgW8 y0 2).2.1 1 [[0, 1]]
     (by with_unfolding_all rfl)⟩

/-! ## Claim C3 -/

/-- Claim C3 (code bug): on a freshly constructed STABL object of any
configuration, get_support does not fail with NotFitted.  The
check_is_fitted call embedded in getSupportMask passes, because
STABL.__init__ pre-assigns stability_scores_ = None and the check only
tests attribute existence; the call then fails inside
np.max(None, axis=1) with the numpy AxisError, which is not the
NotFitted error the specification promises. -/
theorem get_support_before_fit_raises_axis_error_not_notfitted (cfg : Config) :
    STABL.get_support (STABL.init cfg) none = .error Err.axisError ∧
    Err.axisError ≠ Err.notFitted :=
  ⟨rfl, by decide⟩

/-! ## Claim C1 -/

/-- Claim C1 (code bug): a fitted state whose minimum estimated FDP is
3/5 — strictly above 1/2 — for which the FDR controller nevertheless
selects the grid threshold 3/10 (not the no-usable-threshold sentinel
1.0), so get_support with no override selects all five real features.
The repository's own plot_fdr_graph, embedded as plotOptimalThreshold,
reports "No optimal threshold" at 1.0 for this very state: the
selection path _compute_FDRc (cutoff min_fdr_ > 1.0, stabl.py line 994)
contradicts the reporting path plot_fdr_graph (cutoff 0.5, line 195),
and the specification describes the 0.5 rule. -/
theorem fdr_above_half_still_selects :
    c1res.min_fdr_ = some (3/5) ∧ (1/2 : ℚ) < 3/5 ∧
    c1res.fdr_min_threshold_ = some (3/10) ∧ ((3/10 : ℚ) ≠ 1) ∧
    STABL.get_support c1res none = .ok [true, true, true, true, true] ∧
    plotOptimalThreshold c1res = some (1, true) :=
  ⟨by with_unfolding_all rfl, by norm_num, by with_unfolding_all rfl, by norm_num,
   by with_unfolding_all rfl, by with_unfolding_all rfl⟩

/-! ## Claim C2 -/

/-- Claim C2, amended: for every fitted state carrying both score
matrices, the FDR curve computed by the controller is exactly the
specification's FDP formula applied to the max-over-grid score vectors
at every grid threshold; the selected threshold is the first grid
argmin of that curve clipped to 1.0 whenever the minimum FDP is at most
1.0, and is the constant 1.0 whenever the minimum FDP exceeds 1.0 (the
clause the original claim lacks). -/
theorem fdr_curve_is_spec_formula_and_threshold (s : STABL) (g m ma : List ℚ)
    (p : ℚ) (rRows aRows : List (List ℚ)) (F : List ℚ)
    (hr : s.stability_scores_ = some rRows)
    (ha : s.stability_scores_artificial_ = some aRows)
    (hF : F = s.cfg.fdr_threshold_range.map
      (spec_FDP s.cfg.artificial_proportion (aRows.map listMax) (rRows.map listMax))) :
    ∃ s₁, computeFDRc s g m ma p = .ok s₁ ∧
      s₁.FDRs_ = some F ∧
      s₁.min_fdr_ = some (listMin F) ∧
      (listMin F ≤ 1 →
        s₁.fdr_min_threshold_ =
          some (min (s.cfg.fdr_threshold_range.getD (argminIdx F) 0) 1)) ∧
      (1 < listMin F → s₁.fdr_min_threshold_ = some 1) := by
  subst hF
  simp only [computeFDRc, hr, ha]
  refine ⟨_, rfl, rfl, rfl, ?_, ?_⟩
  · intro h
    dsimp only
    split
    · rename_i hlt
      exact absurd hlt (not_lt.mpr h)
    · rfl
  · intro h
    dsimp only
    split
    · rfl
    · rename_i hnot
      exact absurd h hnot

/-- Counterexample to C2 as stated: on the state sC2 the minimum FDP is
3 (above 1.0); the controller sets the selected threshold to 1.0, while
the grid point minimizing the FDP clipped to at most 1.0 — the value
the claim promises — is 3/10. -/
theorem selected_threshold_not_clipped_argmin_counterexample :
    c2res.FDRs_ = some [3] ∧ c2res.min_fdr_ = some 3 ∧
    c2res.fdr_min_threshold_ = some 1 ∧
    min (sC2.cfg.fdr_threshold_range.getD (argminIdx [3]) 0) 1 = 3/10 ∧
    ((1 : ℚ) ≠ 3/10) :=
  ⟨by with_unfolding_all rfl, by with_unfolding_all rfl, by with_unfolding_all rfl,
   by with_unfolding_all rfl, by norm_num⟩

/-- Witness for the amended C2 on the state sW2: the FDP curve on the
grid [3/10] is [1] (no synthetic feature above the threshold, one real
feature above it), the minimum 1 is at most 1, and the selected
threshold is the clipped grid argmin 3/10. -/
theorem fdr_curve_is_spec_formula_and_threshold_witness :
    ([1] : List ℚ) = sW2.cfg.fdr_threshold_range.map
      (spec_FDP sW2.cfg.artificial_proportion ([[1/10]].map listMax)
        ([[19/20]].map listMax)) ∧
    ∃ s₁, computeFDRc sW2 [] [] [] 1 = .ok s₁ ∧
      s₁.FDRs_ = some [1] ∧
      s₁.min_fdr_ = some (listMin [1]) ∧
      (listMin [1] ≤ 1 →
        s₁.fdr_min_threshold_ =
          some (min (sW2.cfg.fdr_threshold_range.getD (argminIdx [1]) 0) 1)) ∧
      (1 < listMin [1] → s₁.fdr_min_threshold_ = some 1) :=
  ⟨by with_unfolding_all rfl,
   fdr_curve_is_spec_formula_and_threshold sW2 [] [] [] 1 [[19/20]] [[1/10]] [1]
     rfl rfl (by with_unfolding_all rfl)⟩

/-! ## Claim C5 -/

/-- Claim C5, amended: get_support performs no range validation on the
override threshold.  On any fitted state, any rational override t —
inside or outside (0, 1] — is accepted without error and the returned
mask is pointwise max-over-grid score strictly above t. -/
theorem get_support_applies_any_override (s : STABL) (rows : List (List ℚ))
    (t : ℚ) (hattr : s.hasStabilityScoresAttr = true)
    (hrows : s.stability_scores_ = some rows) :
    STABL.get_support s (some t) =
      .ok ((rows.map listMax).map (fun x => decide (t < x))) := by
  simp [STABL.get_support, getSupportMask, hattr, hrows]

/-- Counterexample to C5 as stated: the override threshold 2 lies
outside (0, 1], yet get_support on the fitted state sC5 succeeds with
the empty mask instead of failing with InvalidConfiguration. -/
theorem get_support_out_of_range_override_counterexample :
    STABL.get_support sC5 (some 2) = .ok [false] ∧
    ¬ (0 < (2 : ℚ) ∧ (2 : ℚ) ≤ 1) :=
  ⟨by with_unfolding_all rfl, by norm_num⟩

/-- Witness for the amended C5: on sC5 the out-of-range override 2 is
applied directly, yielding the mask of scores strictly above 2. -/
theorem get_support_applies_any_override_witness :
    sC5.stability_scores_ = some [[7/10]] ∧
    STABL.get_support sC5 (some 2) =
      .ok (([[7/10]].map listMax).map (fun x => decide ((2 : ℚ) < x))) :=
  ⟨rfl, get_support_applies_any_override sC5 [[7/10]] 2 rfl rfl⟩

/-! ## Claim C6 -/

/-- Claim C6: on a fixed fitted state, for override thresholds
t₁ ≤ t₂ in (0, 1], the mask returned at t₂ is pointwise below the mask
returned at t₁ (every feature selected at t₂ is selected at t₁), and
the selected-feature count at t₂ is at most the count at t₁. -/
theorem get_support_mask_monotone_in_threshold (s : STABL) (t₁ t₂ : ℚ)
    (m₁ m₂ : List Bool) ( _h0 : 0 < t₁) ( _h1 : t₂ ≤ 1) (h12 : t₁ ≤ t₂)
    (hm1 : STABL.get_support s (some t₁) = .ok m₁)
    (hm2 : STABL.get_support s (some t₂) = .ok m₂) :
    (∀ j, m₂.getD j false = true → m₁.getD j false = true) ∧
    m₂.countP (fun b => b) ≤ m₁.countP (fun b => b) := by
  unfold STABL.get_support getSupportMask at hm1 hm2
  cases hattr : s.hasStabilityScoresAttr with
  | false =>
    simp only [hattr] at hm1
    cases hm1
  | true =>
    simp only [hattr] at hm1 hm2
    cases hrows : s.stability_scores_ with
    | none =>
      simp only [hrows] at hm1
      cases hm1
    | some rows =>
      simp only [hrows] at hm1 hm2
      cases hm1
      cases hm2
      exact ⟨getD_map_lt_mono (rows.map listMax) t₁ t₂ h12,
        countP_map_lt_mono (rows.map listMax) t₁ t₂ h12⟩

/-- Witness for C6 on the fitted state sC6 (max scores 3/5 and 9/10)
with thresholds 1/2 ≤ 3/4: the masks are [true, true] and
[false, true], the second pointwise below the first. -/
theorem get_support_mask_monotone_in_threshold_witness :
    STABL.get_support sC6 (some (1/2)) = .ok [true, true] ∧
    STABL.get_support sC6 (some (3/4)) = .ok [false, true] ∧
    ((∀ j, ([false, true] : List Bool).getD j false = true →
        ([true, true] : List Bool).getD j false = true) ∧
      ([false, true] : List Bool).countP (fun b => b) ≤
        ([true, true] : List Bool).countP (fun b => b)) :=
  ⟨by with_unfolding_all rfl, by with_unfolding_all rfl,
   get_support_mask_monotone_in_threshold sC6 (1/2) (3/4) [true, true] [false, true]
     (by norm_num) (by norm_num) (by norm_num)
     (by with_unfolding_all rfl) (by with_unfolding_all rfl)⟩

/-! ## Claim C7 -/

/-- Claim C7: the stability scores matrices produced by fit are a pure
function of the design matrix, the outcome vector, the configuration
and the seed threaded through the sampler — two fits over the same
inputs whose configurations differ only in the worker count n_jobs
yield identical real and artificial score matrices.  The joblib pool is
embedded as parallelMap, encoding joblib's guarantee that results are
returned in input order regardless of worker count and completion
order; determinism over repeated identical calls is immediate because
the embedding is a function of its arguments. -/
theorem fit_scores_independent_of_n_jobs (rng : Rng) (fuel : Nat) (s : STABL)
    (w₁ w₂ : Int) (X : List (List ℚ)) (y : List ℚ) :
    (STABL.fit rng fuel { s with cfg := { s.cfg with n_jobs := w₁ } } X y).map
      (fun r => (r.stability_scores_, r.stability_scores_artificial_)) =
    (STABL.fit rng fuel { s with cfg := { s.cfg with n_jobs := w₂ } } X y).map
      (fun r => (r.stability_scores_, r.stability_scores_artificial_)) := by
  have hfs : fitScores rng fuel { s.cfg with n_jobs := w₁ } X y =
      fitScores rng fuel { s.cfg with n_jobs := w₂ } X y := rfl
  unfold STABL.fit
  cases hb : fitScores rng fuel { s.cfg with n_jobs := w₂ } X y with
  | error e =>
    have hb1 : fitScores rng fuel { s.cfg with n_jobs := w₁ } X y = .error e :=
      hfs.trans hb
    simp only [hb, hb1]
  | ok b =>
    have hb1 : fitScores rng fuel { s.cfg with n_jobs := w₁ } X y = .ok b :=
      hfs.trans hb
    simp only [hb, hb1]
    cases hta : s.cfg.artificial_type with
    | none =>
      simp only [hta]
      rfl
    | some atype =>
      simp only [hta]
      cases hba : b.artScores with
      | some a =>
        simp only [hba, computeFDRc]
        rfl
      | none =>
        simp only [hba, computeFDRc]
        cases hsa : s.stability_scores_artificial_ with
        | none =>
          simp only [hsa]
        | some a =>
          simp only [hsa]
          rfl

/-! ## Claim C8 -/

/-- Claim C8: on any state produced by a successful fit, every entry of
the real stability scores matrix — and of the artificial stability
scores matrix whenever synthetic features were enabled on this fit —
lies in [0, 1], and equals k / n_bootstraps where k counts, among the
grid point's n_bootstraps resample masks, those in which the feature's
column was selected. -/
theorem stability_scores_are_bootstrap_fractions (rng : Rng) (fuel : Nat)
    (s : STABL) (X : List (List ℚ)) (y : List ℚ) (s₁ : STABL)
    (hfit : STABL.fit rng fuel s X y = .ok s₁) :
    (∀ rows, s₁.stability_scores_ = some rows → ∀ row ∈ rows, ∀ q ∈ row,
      (0 ≤ q ∧ q ≤ 1) ∧
      ∃ (masks : List (List Bool)) (j : Nat), masks.length = s.cfg.n_bootstraps ∧
        q = ((masks.countP (fun m => m.getD j false) : ℕ) : ℚ) /
          ((s.cfg.n_bootstraps : ℕ) : ℚ)) ∧
    (∀ atype rows, s.cfg.artificial_type = some atype →
      s₁.stability_scores_artificial_ = some rows → ∀ row ∈ rows, ∀ q ∈ row,
      (0 ≤ q ∧ q ≤ 1) ∧
      ∃ (masks : List (List Bool)) (j : Nat), masks.length = s.cfg.n_bootstraps ∧
        q = ((masks.countP (fun m => m.getD j false) : ℕ) : ℚ) /
          ((s.cfg.n_bootstraps : ℕ) : ℚ)) := by
  rcases fit_ok_scores hfit with ⟨b, hb, hsc, hart⟩
  have hpos : 0 < s.cfg.n_bootstraps :=
    validateInput_n_bootstraps_pos (fitScores_ok_validate hb)
  constructor
  · intro rows hrows row hrow q hq
    rw [hsc] at hrows
    cases hrows
    rcases fitScores_entry_real hb row hrow q hq with ⟨masks, j, hlen, rfl⟩
    rcases meanAt_fraction j hlen hpos with ⟨hbounds, k, hk, hval⟩
    refine ⟨hbounds, masks, j, hlen, ?_⟩
    unfold meanAt
    rw [hlen]
  · intro atype rows hat hrows row hrow q hq
    rcases fitScores_entry_artificial hat hb with ⟨arows, hba, hentries⟩
    rw [hart, hba] at hrows
    cases hrows
    rcases hentries row hrow q hq with ⟨masks, j, hlen, rfl⟩
    rcases meanAt_fraction j hlen hpos with ⟨hbounds, k, hk, hval⟩
    refine ⟨hbounds, masks, j, hlen, ?_⟩
    unfold meanAt
    rw [hlen]

/-- Witness for C8: the concrete fit of cfgW8 succeeds with score
matrix [[1], [0]]; its entry 1 (feature 0 at the only grid point) is in
[0, 1] and is a fraction with denominator n_bootstraps = 1. -/
theorem stability_scores_are_bootstrap_fractions_witness :
    STABL.fit rngW 2 (STABL.init cfgW8) X0 y0 = .ok sFit8 ∧
    sFit8.stability_scores_ = some [[1], [0]] ∧
    ((0 ≤ (1 : ℚ) ∧ (1 : ℚ) ≤ 1) ∧
      ∃ (masks : List (List Bool)) (j : Nat),
        masks.length = (STABL.init cfgW8).cfg.n_bootstraps ∧
        (1 : ℚ) = ((masks.countP (fun m => m.getD j false) : ℕ) : ℚ) /
          (((STABL.init cfgW8).cfg.n_bootstraps : ℕ) : ℚ)) :=
  ⟨by with_unfolding_all rfl, by with_unfolding_all rfl,
   (stability_scores_are_bootstrap_fractions rngW 2 (STABL.init cfgW8) X0 y0 sFit8
       (by with_unfolding_all rfl)).1
     [[1], [0]] (by with_unfolding_all rfl) [1] (by simp) 1 (by simp)⟩

/-! ## Claim C9 -/

/-- Claim C9, amended: a second call to fit always rebuilds
stability_scores_, but it rebuilds the artificial score matrix, the
synthetic block and the FDR state (FDR curve, minimum FDP, selected
threshold) only when the second call has synthetic features enabled;
when the second call runs with artificial_type = None those five
attributes keep whatever values the earlier fit left in them. -/
theorem refit_without_artificial_keeps_prior_artificial_state (rng : Rng)
    (fuel : Nat) (s : STABL) (X : List (List ℚ)) (y : List ℚ) (s₁ : STABL)
    (hat : s.cfg.artificial_type = none)
    (hfit : STABL.fit rng fuel s X y = .ok s₁) :
    (∃ rows, s₁.stability_scores_ = some rows) ∧
    s₁.stability_scores_artificial_ = s.stability_scores_artificial_ ∧
    s₁.X_artificial_ = s.X_artificial_ ∧
    s₁.FDRs_ = s.FDRs_ ∧
    s₁.min_fdr_ = s.min_fdr_ ∧
    s₁.fdr_min_threshold_ = s.fdr_min_threshold_ := by
  unfold STABL.fit at hfit
  split at hfit
  · cases hfit
  · rename_i b hb
    rcases fitScores_none_artificial hat hb with ⟨hba, hxa⟩
    simp only [hat] at hfit
    cases hfit
    refine ⟨⟨b.scores, rfl⟩, ?_, ?_, rfl, rfl, rfl⟩
    · simp only [hba]
    · simp only [hxa]

/-- Witness for the amended C9 at the concrete pair of fits: the object
first fitted with synthetic features (s1C9), its parameters switched to
cfgW8 (synthetic off, hard threshold), is refitted successfully and the
artificial/FDR attributes survive unchanged. -/
theorem refit_without_artificial_keeps_prior_artificial_state_witness :
    s2C9.cfg.artificial_type = none ∧
    STABL.fit rngW 4 s2C9 X0 y0 = .ok s3C9 ∧
    ((∃ rows, s3C9.stability_scores_ = some rows) ∧
      s3C9.stability_scores_artificial_ = s2C9.stability_scores_artificial_ ∧
      s3C9.X_artificial_ = s2C9.X_artificial_ ∧
      s3C9.FDRs_ = s2C9.FDRs_ ∧
      s3C9.min_fdr_ = s2C9.min_fdr_ ∧
      s3C9.fdr_min_threshold_ = s2C9.fdr_min_threshold_) :=
  ⟨rfl, by with_unfolding_all rfl,
   refit_without_artificial_keeps_prior_artificial_state rngW 4 s2C9 X0 y0 s3C9
     rfl (by with_unfolding_all rfl)⟩

/-- Counterexample to C9 as stated: after the second fit (synthetic
features off) the object still carries the first fit's artificial score
matrix, synthetic block, FDR curve, minimum FDP and selected threshold
— prior fitted state survives the second fit. -/
theorem refit_leaves_stale_artificial_state_counterexample :
    STABL.fit rngW 4 s2C9 X0 y0 = .ok s3C9 ∧
    s3C9.stability_scores_artificial_ = some [[1], [0]] ∧
    s3C9.X_artificial_ = some [[3, 4], [1, 2]] ∧
    s3C9.FDRs_ = some [2] ∧
    s3C9.min_fdr_ = some 2 ∧
    s3C9.fdr_min_threshold_ = some 1 ∧
    s1C9.stability_scores_artificial_ = some [[1], [0]] ∧
    s1C9.FDRs_ = some [2] :=
  ⟨by with_unfolding_all rfl, by with_unfolding_all rfl, by with_unfolding_all rfl,
   by with_unfolding_all rfl, by with_unfolding_all rfl, by with_unfolding_all rfl,
   by with_unfolding_all rfl, by with_unfolding_all rfl⟩
